import Mathlib

set_option maxRecDepth 100000

/-
Verification of the lighthouse audit-batch orchestrator (src/index.js).

The embedding models the pure data flow of the POST /runaudit handler:
the external audit tool, the filesystem and the generation endpoint are
represented by environment functions supplying, for each URL, the parsed
JSON report and the generation-endpoint outcome.  JavaScript numbers are
modelled as exact rationals; JavaScript truthiness of optional strings
(undefined or the empty string are falsy) is modelled by jsOrStr.
-/

namespace Lighthouse

/-- Value of a numeric JSON field as the handler can observe it:
absent (JS undefined), JSON null, or an actual number. -/
inductive JNum
  | undef
  | null
  | num (q : ℚ)
  deriving DecidableEq

/-- Models the JS idiom `v || d` for an optional string `v`:
undefined and the empty string are falsy and select the default. -/
def jsOrStr (v : Option String) (d : String) : String :=
  match v with
  | none => d
  | some s => if s = "" then d else s

/-- One element of `audit.details.items` in the parsed report:
the optionally present `item.node.snippet` string, and the string
`JSON.stringify(item, null, 2)` (the pretty-printed dump of the item). -/
structure DetailItem where
  nodeSnippet : Option String
  stringified : String
  deriving DecidableEq

/-- The JS value stored in the `details` field of a built issue object.
The builder (index.js:196-198) stores an array of strings; the renderer
(index.js:209-219) expects an object with an `items` array.  Property
access `.items` on a plain array yields undefined, which `itemsProp`
makes explicit. -/
inductive JSDetails
  | strArr (l : List String)
  | itemsObj (items : List DetailItem)
  deriving DecidableEq

/-- JS property access `details.items`: undefined on an array value. -/
def JSDetails.itemsProp : JSDetails → Option (List DetailItem)
  | .strArr _ => none
  | .itemsObj items => some items

/-- One check result from `report.audits` as the handler reads it
(index.js:190-199): id, score, title, description, and the optional
chain `audit.details?.items` flattened to one Option. -/
structure Audit where
  id : String
  score : JNum
  title : Option String
  description : Option String
  detailsItems : Option (List DetailItem)
  deriving DecidableEq

/-- The issue object built at index.js:192-199. -/
structure Issue where
  id : String
  title : Option String
  description : Option String
  details : JSDetails
  deriving DecidableEq

/-- index.js:192-199 — the mapped issue object.  Its `details` field is
`audit.details?.items?.map(item => JSON.stringify(item, null, 2)) || []`,
an array of strings. -/
def mkIssue (a : Audit) : Issue :=
  { id := a.id
    title := a.title
    description := a.description
    details := JSDetails.strArr
      ((a.detailsItems.map (fun items => items.map (fun item => item.stringified))).getD []) }

/-- index.js:190-199 — `Object.values(report.audits).filter(a => a.score === 0).map(...)`.
The input list is the report's check-result mapping in its natural
enumeration order (Object.values order). -/
def buildIssues (audits : List Audit) : List Issue :=
  (audits.filter (fun a => a.score == JNum.num 0)).map mkIssue

/-- index.js:210-217 — the snippet lines of the Details block, with JS
map index `j` threaded explicitly: line `    [<j+1>]: <snippet>` where
the snippet is `item?.node?.snippet || JSON.stringify(item, null, 2)`. -/
def snippetLinesFrom : Nat → List DetailItem → List String
  | _, [] => []
  | j, item :: rest =>
    ("    [" ++ toString (j + 1) ++ "]: " ++ jsOrStr item.nodeSnippet item.stringified)
      :: snippetLinesFrom (j + 1) rest

/-- index.js:202-222 — the rendered block for one issue at serial number
`serial`: `[<serial>]: <title> - <description><detailsText>`, where
`detailsText` is non-empty only when `issue.details?.items?.length` is
truthy. -/
def renderIssue (serial : Nat) (issue : Issue) : String :=
  let title := jsOrStr issue.title ("No title")
  let description := jsOrStr issue.description ("No description")
  let detailsText :=
    match issue.details.itemsProp with
    | none => ""
    | some items =>
      if items.length ≠ 0 then
        "\n  Details:\n" ++ String.intercalate ("\n") (snippetLinesFrom 0 items)
      else ""
  "[" ++ toString serial ++ "]: " ++ title ++ " - " ++ description ++ detailsText

/-- index.js:201-224 — `issues.map((issue, i) => ...)` with the JS map
index `i` threaded explicitly; the serial number is `i + 1`. -/
def renderBlocksFrom : Nat → List Issue → List String
  | _, [] => []
  | i, issue :: rest => renderIssue (i + 1) issue :: renderBlocksFrom (i + 1) rest

/-- index.js:201-224 — the full `issuesText`: the rendered blocks joined
by a blank line (`.join("\n\n")`). -/
def issuesTextOf (audits : List Audit) : String :=
  String.intercalate ("\n\n") (renderBlocksFrom 0 (buildIssues audits))

/-- A parsed lighthouse report as the handler reads it:
`report.categories.accessibility?.score` and `Object.values(report.audits)`. -/
structure Report where
  accessibilityScore : JNum
  audits : List Audit
  deriving DecidableEq

/-- index.js:187 — `report.categories.accessibility?.score * 100 || 0`.
An absent score gives NaN (falsy) hence 0; null times 100 is 0; a
numeric score gives `q * 100` with the JS `|| 0` mapping a zero product
to 0. -/
def scoreOf (r : Report) : ℚ :=
  match r.accessibilityScore with
  | JNum.undef => 0
  | JNum.null => 0
  | JNum.num q => if q * 100 = 0 then 0 else q * 100

/-- The character list of the pattern ```html. -/
def fenceHtmlList : List Char := "```html".toList

/-- The character list of the pattern ```. -/
def fenceList : List Char := "```".toList

/-- Whether the pattern (first argument) occurs at the start of the
text (second argument). -/
def matchHere : List Char → List Char → Bool
  | [], _ => true
  | _ :: _, [] => false
  | p :: ps, c :: cs => p == c && matchHere ps cs

/-- index.js:159 — `result.replace(/```html|```/g, "")`, one character
at a time: while `skip` is positive the character belongs to an already
matched occurrence and is dropped; otherwise the alternation is tried at
the current position (```html first, then ```), and on a match the
occurrence is consumed, else the character is kept. -/
def replaceFencesAux : List Char → Nat → List Char
  | [], _ => []
  | _ :: rest, skip + 1 => replaceFencesAux rest skip
  | a :: rest, 0 =>
    if matchHere fenceHtmlList (a :: rest) then replaceFencesAux rest 6
    else if matchHere fenceList (a :: rest) then replaceFencesAux rest 2
    else a :: replaceFencesAux rest 0

/-- The global replacement over a whole character list. -/
def replaceFences (l : List Char) : List Char := replaceFencesAux l 0

/-- The global fence replacement lifted to strings. -/
def stripFences (s : String) : String := String.mk (replaceFences s.toList)

/-- The observable outcome of the generation-endpoint call inside
analyzeWithAI: the fetch (or response parsing) threw, the response had a
non-success status (`!response.ok`), or it succeeded and the optional
chain `data.candidates[0]?.content?.parts[0]?.text` produced the given
optional string. -/
inductive AIResponse
  | fetchError
  | notOk
  | ok (text : Option String)
  deriving DecidableEq

/-- index.js:99-164 — analyzeWithAI.  A thrown error (fetch failure, bad
JSON, or the explicit throw on `!response.ok`) is caught and mapped to
the literal failure string; on success the extracted text (with the
failure literal substituted for a falsy text) has the fence patterns
removed. -/
def analyzeWithAI : AIResponse → String
  | AIResponse.fetchError => "AI analysis failed."
  | AIResponse.notOk => "AI analysis failed."
  | AIResponse.ok t => stripFences (jsOrStr t ("AI analysis failed."))

/-- The object pushed at index.js:229:
`{ url, score, issues: issuesText, aiFixes: aiFixes }`.
Note the third field is named `issues`. -/
structure ResultRecord where
  url : String
  score : ℚ
  issues : String
  aiFixes : String
  deriving DecidableEq

/-- A primitive JSON value in a result record. -/
inductive JLit
  | s (v : String)
  | n (v : ℚ)
  deriving DecidableEq

/-- The key/value pairs of the object literal pushed at index.js:229, in
source order: shorthand `url` and `score`, then `issues: issuesText`,
then `aiFixes: aiFixes`. -/
def ResultRecord.toJSObject (r : ResultRecord) : List (String × JLit) :=
  [("url", JLit.s r.url), ("score", JLit.n r.score),
   ("issues", JLit.s r.issues), ("aiFixes", JLit.s r.aiFixes)]

/-- index.js:181-230 — the loop body for one URL, given the environment
functions supplying its parsed report and its generation-endpoint
outcome (the claims below assume the audit run and the JSON parse
succeed, the handler's non-error path). -/
def processUrl (reports : String → Report) (ai : String → AIResponse) (url : String) :
    ResultRecord :=
  let report := reports url
  let score := scoreOf report
  let issuesText := issuesTextOf report.audits
  let aiFixes := analyzeWithAI (ai url)
  { url := url, score := score, issues := issuesText, aiFixes := aiFixes }

/-- index.js:179-230 — the batch loop: one result pushed per URL, in
order. -/
def runBatch (urls : List String) (reports : String → Report) (ai : String → AIResponse) :
    List ResultRecord :=
  urls.map (processUrl reports ai)

/-- index.js:17-23 — the hardcoded fallback URL list `testInputs.urls`
(`testInputs` has no `apiKey` field). -/
def testInputsUrls : List String :=
  ["https://workspace.google.com/intl/en_au/lp/gmail-au/index.html",
   "https://workspace.google.com/intl/en_in/lp/gmail-in/index.html",
   "https://workspace.google.com/intl/es_ALL/"]

/-- The `urls` field of the request body as validation sees it: absent,
present but not an array, or an array of strings. -/
inductive UrlsField
  | absent
  | notArray
  | arr (urls : List String)
  deriving DecidableEq

/-- The JSON request body of POST /runaudit. An absent apiKey is `none`;
the JS falsiness of the empty string is handled in the handler. -/
structure ReqBody where
  urls : UrlsField
  apiKey : Option String
  deriving DecidableEq

/-- The handler's HTTP outcome: a 400 with the given error payload, or a
200 with `{results}`. -/
inductive HttpResponse
  | badRequest (errMsg : String)
  | okJson (results : List ResultRecord)
  deriving DecidableEq

/-- index.js:166-233 — the POST /runaudit handler on its non-throwing
path.  `req.body || testInputs` substitutes the fallback object when the
body is absent; `!urls || !Array.isArray(urls)` rejects an absent or
non-array urls (an empty array is truthy and passes); `!apiKey` rejects
an absent or empty apiKey. -/
def handleRunAudit (body : Option ReqBody) (reports : String → Report)
    (ai : String → AIResponse) : HttpResponse :=
  let b := body.getD { urls := UrlsField.arr testInputsUrls, apiKey := none }
  match b.urls with
  | UrlsField.absent => HttpResponse.badRequest ("Invalid input: urls")
  | UrlsField.notArray => HttpResponse.badRequest ("Invalid input: urls")
  | UrlsField.arr urls =>
    match b.apiKey with
    | none => HttpResponse.badRequest ("Invalid input: apiKey is required")
    | some k =>
      if k = "" then HttpResponse.badRequest ("Invalid input: apiKey is required")
      else HttpResponse.okJson (runBatch urls reports ai)

/-- A report with a null category score and no checks. -/
def emptyReport : Report := { accessibilityScore := JNum.null, audits := [] }

/-- Environment in which every URL parses to the empty report. -/
def reports0 : String → Report := fun _ => emptyReport

/-- Environment in which every generation-endpoint call has a
non-success status. -/
def ai0 : String → AIResponse := fun _ => AIResponse.notOk

/-- A failing check (score exactly 0). -/
def auditFail : Audit :=
  { id := "image-alt"
    score := JNum.num 0
    title := some ("Image elements must have alternate text")
    description := some ("Informative elements should aim for short, descriptive alternate text.")
    detailsItems := none }

/-- A passing check (score 1). -/
def auditPass : Audit :=
  { id := "color-contrast"
    score := JNum.num 1
    title := some ("Contrast")
    description := some ("Background and foreground colors have sufficient contrast.")
    detailsItems := none }

/-- A report whose category score is 0.765. -/
def rep765 : Report := { accessibilityScore := JNum.num (765/1000), audits := [] }

/-- A detail item carrying a nested HTML snippet. -/
def c3item : DetailItem :=
  { nodeSnippet := some ("<img src=x>"), stringified := "dump of the whole item" }

/-- A failing check with one detail item. -/
def c3audit : Audit :=
  { id := "image-alt"
    score := JNum.num 0
    title := some ("T")
    description := some ("D")
    detailsItems := some [c3item] }

/-- A report with one failing check that has a non-empty detail list. -/
def c3report : Report := { accessibilityScore := JNum.num (9/10), audits := [c3audit] }

/- ---------------------------------------------------------------- -/
/- Theorems -/

/-- The block list rendered from position `k` indexes its issues with
serial numbers continuing from `k + 1`. -/
theorem renderBlocksFrom_get (issues : List Issue) (k i : Nat)
    (h1 : i < (renderBlocksFrom k issues).length) (h2 : i < issues.length) :
    (renderBlocksFrom k issues).get ⟨i, h1⟩ = renderIssue (k + i + 1) (issues.get ⟨i, h2⟩) := by
  induction issues generalizing k i with
  | nil => simp at h2
  | cons issue rest ih =>
    cases i with
    | zero => rfl
    | succ i =>
      have h1' : i < (renderBlocksFrom (k + 1) rest).length := by
        simpa [renderBlocksFrom] using h1
      have h2' : i < rest.length := by simpa using h2
      have heq : k + 1 + i + 1 = k + (i + 1) + 1 := by omega
      simpa [renderBlocksFrom, heq] using ih (k + 1) i h1' h2'

/-- C1: for every non-empty URL list, with the per-URL audit run and
report parse succeeding (the reports are supplied by the environment
function, the handler's non-error path), the batch produces exactly one
result per input URL, in input order, and each result's url field equals
the corresponding input URL. -/
theorem c1_one_result_per_url_in_order (urls : List String)
    (reports : String → Report) (ai : String → AIResponse) (_hne : urls ≠ []) :
    (runBatch urls reports ai).length = urls.length ∧
    (runBatch urls reports ai).map ResultRecord.url = urls := by
  refine ⟨by simp [runBatch], ?_⟩
  have hurl : ∀ u, ResultRecord.url (processUrl reports ai u) = u := fun _ => rfl
  simp [runBatch, List.map_map, Function.comp_def, hurl]

/-- Witness for C1 at the one-element URL list. -/
theorem c1_one_result_per_url_in_order_witness :
    (runBatch ["https://a.com"] reports0 ai0).length
      = (["https://a.com"] : List String).length ∧
    (runBatch ["https://a.com"] reports0 ai0).map ResultRecord.url = ["https://a.com"] :=
  c1_one_result_per_url_in_order ["https://a.com"] reports0 ai0 (by simp)

/-- C2 counterexample: the record pushed for a URL has no field named
issuesText — its keys are url, score, issues and aiFixes (index.js:229
writes `issues: issuesText`). -/
theorem c2_no_issuesText_field_cex :
    ¬ ("issuesText" ∈ ((processUrl reports0 ai0 ("https://a.com")).toJSObject.map Prod.fst)) := by
  decide

/-- C2 amended: each record appended to the batch result has exactly the
fields url, score, issues and aiFixes, in that order, where issues holds
the rendered textual summary of that URL's Issues and aiFixes the
analysis output. -/
theorem c2_record_fields_amended (reports : String → Report) (ai : String → AIResponse)
    (url : String) :
    (processUrl reports ai url).toJSObject =
      [("url", JLit.s url),
       ("score", JLit.n (scoreOf (reports url))),
       ("issues", JLit.s (issuesTextOf (reports url).audits)),
       ("aiFixes", JLit.s (analyzeWithAI (ai url)))] := rfl

/-- C3 (code bug): a retained check with a non-empty detail list renders
with no Details section at all: the renderer reads `issue.details.items`
but `issue.details` is the already-stringified array, whose items
property is undefined, so the Details branch (index.js:209-220) is dead.
The first conjuncts evaluate the code at the failing input; the last
shows what the renderer's own Details logic would produce on the
object-shaped details it expects, matching the claim. -/
theorem c3_details_block_never_rendered :
    c3audit.detailsItems = some [c3item] ∧
    issuesTextOf c3report.audits = "[1]: T - D" ∧
    renderIssue 1
        { id := "image-alt", title := some ("T"), description := some ("D"),
          details := JSDetails.itemsObj [c3item] }
      = "[1]: T - D\n  Details:\n    [1]: <img src=x>" :=
  ⟨rfl, by decide, by decide⟩

/-- C4 counterexample: the code does not round — a category score of
0.765 yields 76.5, not round(76.5) = 77. -/
theorem c4_rounding_cex :
    scoreOf rep765 ≠ ((round (((765 : ℚ)/1000) * 100) : ℤ) : ℚ) := by
  have h1 : scoreOf rep765 = 153/2 := by norm_num [scoreOf, rep765]
  have h2 : (round (((765 : ℚ)/1000) * 100) : ℤ) = 77 := by norm_num [round_eq]
  rw [h1, h2]
  norm_num

/-- C4 amended: the per-URL score equals the category score times 100
with no rounding, defaults to 0 when the score field is absent or null
or the product is falsy, lies in [0,100] whenever the category score
lies in [0,1] (the report data model's range), and a category score of
0.76 yields exactly 76. -/
theorem c4_score_amended (q : ℚ) (h0 : 0 ≤ q) (h1 : q ≤ 1) :
    scoreOf { accessibilityScore := JNum.num q, audits := [] } = q * 100 ∧
    0 ≤ scoreOf { accessibilityScore := JNum.num q, audits := [] } ∧
    scoreOf { accessibilityScore := JNum.num q, audits := [] } ≤ 100 ∧
    scoreOf { accessibilityScore := JNum.num (76/100), audits := [] } = 76 ∧
    scoreOf { accessibilityScore := JNum.undef, audits := [] } = 0 ∧
    scoreOf { accessibilityScore := JNum.null, audits := [] } = 0 := by
  have hval : scoreOf { accessibilityScore := JNum.num q, audits := [] } = q * 100 := by
    by_cases h : q * 100 = 0
    · simp [scoreOf, h]
    · simp [scoreOf, h]
  refine ⟨hval, ?_, ?_, by norm_num [scoreOf], rfl, rfl⟩
  · rw [hval]
    nlinarith
  · rw [hval]
    nlinarith

/-- Witness for C4 (amended) at the category score 1/2. -/
theorem c4_score_amended_witness :
    scoreOf { accessibilityScore := JNum.num (1/2), audits := [] } = (1/2) * 100 ∧
    0 ≤ scoreOf { accessibilityScore := JNum.num (1/2), audits := [] } ∧
    scoreOf { accessibilityScore := JNum.num (1/2), audits := [] } ≤ 100 ∧
    scoreOf { accessibilityScore := JNum.num (76/100), audits := [] } = 76 ∧
    scoreOf { accessibilityScore := JNum.undef, audits := [] } = 0 ∧
    scoreOf { accessibilityScore := JNum.null, audits := [] } = 0 :=
  c4_score_amended (1/2) (by norm_num) (by norm_num)

/-- C5: appending a check with score exactly 0 to the mapping appends
exactly its Issue at the end of the built list, appending a check with
any other score (0.5, null, 1, ...) leaves the list unchanged — so an
Issue is produced iff the check's score is exactly 0, in enumeration
order — and the i-th rendered block carries the 1-based serial number
i + 1 applied to the i-th retained Issue. -/
theorem c5_zero_score_filter_and_serials (audits : List Audit) (a : Audit) :
    (a.score = JNum.num 0 → buildIssues (audits ++ [a]) = buildIssues audits ++ [mkIssue a]) ∧
    (a.score ≠ JNum.num 0 → buildIssues (audits ++ [a]) = buildIssues audits) ∧
    (∀ (issues : List Issue) (i : Nat) (h1 : i < (renderBlocksFrom 0 issues).length)
        (h2 : i < issues.length),
      (renderBlocksFrom 0 issues).get ⟨i, h1⟩ = renderIssue (i + 1) (issues.get ⟨i, h2⟩)) := by
  refine ⟨?_, ?_, ?_⟩
  · intro h
    simp [buildIssues, List.filter_append, h]
  · intro h
    simp [buildIssues, List.filter_append, h]
  · intro issues i h1 h2
    simpa using renderBlocksFrom_get issues 0 i h1 h2

/-- Witness for C5: a zero-score check appends its Issue, a score-1
check appends nothing, and the first rendered block carries serial 1. -/
theorem c5_zero_score_filter_and_serials_witness :
    buildIssues ([auditPass] ++ [auditFail]) = buildIssues [auditPass] ++ [mkIssue auditFail] ∧
    buildIssues ([auditFail] ++ [auditPass]) = buildIssues [auditFail] ∧
    (renderBlocksFrom 0 [mkIssue auditFail]).get ⟨0, by simp [renderBlocksFrom]⟩
      = renderIssue 1 ([mkIssue auditFail].get ⟨0, by simp⟩) := by
  refine ⟨(c5_zero_score_filter_and_serials [auditPass] auditFail).1 (by decide),
          (c5_zero_score_filter_and_serials [auditFail] auditPass).2.1 (by decide),
          ?_⟩
  exact (c5_zero_score_filter_and_serials [] auditFail).2.2 [mkIssue auditFail] 0
    (by simp [renderBlocksFrom]) (by simp)

/-- C6: analyzeWithAI never fails outward — it is a total function into
String; on a thrown fetch/parse error or a non-success response status
it returns the literal failure string, and the batch loop still yields
one result per URL, each carrying that literal as aiFixes. -/
theorem c6_analyze_never_fails_outward (resp : AIResponse) (urls : List String)
    (reports : String → Report)
    (herr : resp = AIResponse.fetchError ∨ resp = AIResponse.notOk) :
    analyzeWithAI resp = "AI analysis failed." ∧
    (runBatch urls reports (fun _ => resp)).length = urls.length ∧
    (∀ r ∈ runBatch urls reports (fun _ => resp), r.aiFixes = "AI analysis failed.") := by
  have hlit : analyzeWithAI resp = "AI analysis failed." := by
    rcases herr with h | h <;> rw [h] <;> rfl
  refine ⟨hlit, by simp [runBatch], ?_⟩
  intro r hr
  rw [runBatch, List.mem_map] at hr
  obtain ⟨u, hu, rfl⟩ := hr
  simpa [processUrl] using hlit

/-- Witness for C6 at a non-success response status. -/
theorem c6_analyze_never_fails_outward_witness :
    analyzeWithAI AIResponse.notOk = "AI analysis failed." ∧
    (runBatch ["https://a.com"] reports0 (fun _ => AIResponse.notOk)).length
      = (["https://a.com"] : List String).length ∧
    (∀ r ∈ runBatch ["https://a.com"] reports0 (fun _ => AIResponse.notOk),
      r.aiFixes = "AI analysis failed.") :=
  c6_analyze_never_fails_outward AIResponse.notOk ["https://a.com"] reports0 (Or.inr rfl)

/-- C7 counterexample: a code-fence marker strictly inside the returned
text is not preserved — the replacement is global, so the text x```y
comes back as xy. -/
theorem c7_interior_fence_removed_cex :
    analyzeWithAI (AIResponse.ok (some ("x```y"))) = "xy" ∧ ("xy" : String) ≠ "x```y" :=
  ⟨by decide, by decide⟩

/-- C7 amended: on a successful response with non-empty text, analyze
returns the text with every occurrence of ```html or ``` removed,
wherever it occurs (leading, trailing or interior). -/
theorem c7_success_strips_every_fence (t : String) (h : t ≠ "") :
    analyzeWithAI (AIResponse.ok (some t)) = stripFences t := by
  simp [analyzeWithAI, jsOrStr, h]

/-- Witness for C7 (amended) at a text with interior and trailing
fences. -/
theorem c7_success_strips_every_fence_witness :
    analyzeWithAI (AIResponse.ok (some ("a```b```html"))) = stripFences ("a```b```html") :=
  c7_success_strips_every_fence ("a```b```html") (by decide)

/-- C8: POST /runaudit responds 400 with the urls error payload when
urls is absent or not an array, 400 with a distinct apiKey error payload
when apiKey is missing; an absent body is replaced by the hardcoded
testInputs object, whose fallback URL list passes the urls check while
the still-missing apiKey keeps the request from proceeding. -/
theorem c8_validation_and_fallback (reports : String → Report) (ai : String → AIResponse)
    (k : String) (urls : List String) :
    handleRunAudit (some { urls := UrlsField.absent, apiKey := some k }) reports ai
      = HttpResponse.badRequest ("Invalid input: urls") ∧
    handleRunAudit (some { urls := UrlsField.notArray, apiKey := some k }) reports ai
      = HttpResponse.badRequest ("Invalid input: urls") ∧
    handleRunAudit (some { urls := UrlsField.arr urls, apiKey := none }) reports ai
      = HttpResponse.badRequest ("Invalid input: apiKey is required") ∧
    ("Invalid input: urls" : String) ≠ "Invalid input: apiKey is required" ∧
    handleRunAudit none reports ai
      = handleRunAudit (some { urls := UrlsField.arr testInputsUrls, apiKey := none })
          reports ai ∧
    handleRunAudit none reports ai
      = HttpResponse.badRequest ("Invalid input: apiKey is required") :=
  ⟨rfl, rfl, rfl, by decide, rfl, rfl⟩

/-- C9: the empty urls array passes validation (a JS array is truthy and
Array.isArray holds), so with a non-empty apiKey the handler takes no
error branch and responds 200 with an empty results list. -/
theorem c9_empty_urls_returns_empty_results (reports : String → Report)
    (ai : String → AIResponse) (k : String) (hk : k ≠ "") :
    handleRunAudit (some { urls := UrlsField.arr [], apiKey := some k }) reports ai
      = HttpResponse.okJson [] := by
  simp [handleRunAudit, runBatch, hk]

/-- Witness for C9 at the apiKey k. -/
theorem c9_empty_urls_returns_empty_results_witness :
    handleRunAudit (some { urls := UrlsField.arr [], apiKey := some ("k") }) reports0 ai0
      = HttpResponse.okJson [] :=
  c9_empty_urls_returns_empty_results reports0 ai0 ("k") (by decide)

/-- C10: a successful generation response whose first candidate has no
text part, or whose text part is empty, yields the same literal failure
string as a thrown error or a non-success status — the two situations
are indistinguishable in the returned value. -/
theorem c10_empty_generation_same_literal :
    analyzeWithAI (AIResponse.ok none) = "AI analysis failed." ∧
    analyzeWithAI (AIResponse.ok (some (""))) = "AI analysis failed." ∧
    analyzeWithAI (AIResponse.ok none) = analyzeWithAI AIResponse.notOk ∧
    analyzeWithAI (AIResponse.ok (some (""))) = analyzeWithAI AIResponse.fetchError :=
  ⟨by decide, by decide, by decide, by decide⟩

end Lighthouse
